import Mathlib

/-!
Verification of the Google-Sheets synchronization and caching layer of the
Aidash95 dashboard (file src/utils/gsheet.py) and of the credential-upload
validation step of src/login.py, as a shallow embedding.

Modelling conventions:
* Python strings are Lean `String` values; character-level reasoning goes
  through `String.data : String → List Char`.
* Python `str.split(sep)` (nonempty separator, non-overlapping, leftmost
  first) is `pySplit`, defined with an explicit fuel argument so that it is
  structurally recursive and kernel-computable; `l.length + 1` fuel always
  suffices (lemma `pySplitF_fuel_irrel`).
* Streamlit `st.session_state` is an explicit `SessionState` record; a key
  that may be absent from the session is an `Option` field.
* The remote gspread API and wall-clock time are oracles (`ClientOutcome`,
  `RemoteFetch`, `WriteOutcome`, the `now` field): each call of a core
  operation receives the outcome the remote world would produce for it.
  A Python exception raised by the remote library is a `failure`-style
  outcome; the embedded operations are total Lean functions, which models
  the source property that every exception is caught inside the operation.
-/

namespace Aidash

/-- Python substring containment `sep in s` (for example `'/d/' in url_or_id`
in extract_sheet_id, src/utils/gsheet.py line 77), on the character list. -/
def containsSub (sep : List Char) : List Char → Bool
  | [] => sep.isEmpty
  | l@(_ :: rest) => sep.isPrefixOf l || containsSub sep rest

/-- Fuel-indexed model of Python `s.split(sep)` for a nonempty separator:
scan left to right, cut at each non-overlapping leftmost occurrence of
`sep`.  Out of fuel returns `[]`; fuel `l.length + 1` always suffices. -/
def pySplitF (sep : List Char) : Nat → List Char → List (List Char)
  | 0, _ => []
  | _ + 1, [] => [[]]
  | fuel + 1, c :: rest =>
    if sep.isPrefixOf (c :: rest) then
      [] :: pySplitF sep fuel ((c :: rest).drop sep.length)
    else
      match pySplitF sep fuel rest with
      | [] => [[c]]
      | h :: t => (c :: h) :: t

/-- Python `s.split(sep)` for a nonempty separator `sep`. -/
def pySplit (sep l : List Char) : List (List Char) :=
  pySplitF sep (l.length + 1) l

/-- The prefix of `l` before the first occurrence of `sep` (all of `l` when
`sep` does not occur).  Specification-side helper used to describe the
chunks produced by `pySplit`. -/
def beforeFirstSub (sep : List Char) : List Char → List Char
  | [] => []
  | l@(c :: rest) => if sep.isPrefixOf l then [] else c :: beforeFirstSub sep rest

/-- The suffix of `l` after the first occurrence of `sep` (empty when `sep`
does not occur).  Specification-side helper. -/
def afterFirstSub (sep : List Char) : List Char → List Char
  | [] => []
  | l@(_ :: rest) => if sep.isPrefixOf l then l.drop sep.length else afterFirstSub sep rest

/-- The separator `"/d/"` as a character list. -/
def dSepChars : List Char := ['/', 'd', '/']

/-- The separator `"/"` as a character list. -/
def slashChars : List Char := ['/']

/-- Character-list core of extract_sheet_id (src/utils/gsheet.py lines
66-79): empty input gives the empty string; input without a slash is
returned unchanged; input containing "/d/" gives
`url_or_id.split('/d/')[1].split('/')[0]` (list indexing is total here:
under the containment test the index is always in range, so `getD` agrees
with Python indexing); any other input is returned unchanged. -/
def extractCore (l : List Char) : List Char :=
  if l = [] then []
  else if containsSub slashChars l = false then l
  else if containsSub dSepChars l = true then
    (pySplit slashChars ((pySplit dSepChars l).getD 1 [])).getD 0 []
  else l

/-- extract_sheet_id (src/utils/gsheet.py lines 66-79), on Lean strings. -/
def extract_sheet_id (s : String) : String :=
  ⟨extractCore s.data⟩

/-- Modelled from the spec wording of claim C7 and spec section 4.2: the
substring after the first "/d/" up to the next "/".  Used only to compare
the source function against the specified behaviour. -/
def specNormalize (l : List Char) : List Char :=
  (afterFirstSub dSepChars l).takeWhile (fun c => !(c == '/'))

/-! ### Data model of the session state (st.session_state) -/

/-- One record of a worksheet, as returned by get_all_records: a mapping
from column name to cell value.  Cell values are modelled as strings. -/
abbrev Row := List (String × String)

/-- A tabular snapshot (pandas DataFrame built from a list of records). -/
abbrev DataFrame := List Row

/-- One entry of st.session_state.sheets_cache (src/utils/gsheet.py lines
124-129).  Every entry the source ever stores carries all four fields, so
the defensive `cache_entry.get('timestamp', 0)` read on line 92 always
finds the stored timestamp. -/
structure CacheEntry where
  data : DataFrame
  timestamp : Int
  sheet_title : String
  worksheet_title : String
deriving DecidableEq

/-- A service-account credential JSON object: keys with (string) values. -/
abbrev Creds := List (String × String)

/-- The sheets_cache dictionary, keyed by cache key. -/
abbrev Cache := List (String × CacheEntry)

/-- Python dict lookup `cache[key]` combined with `key in cache`. -/
def dictLookup (k : String) : Cache → Option CacheEntry
  | [] => none
  | (k₀, v) :: t => if k₀ = k then some v else dictLookup k t

/-- Python dict assignment `cache[key] = v`: replaces the binding for the
key wholesale, leaving every other binding untouched. -/
def dictInsert (k : String) (v : CacheEntry) : Cache → Cache
  | [] => [(k, v)]
  | (k₀, v₀) :: t => if k₀ = k then (k, v) :: t else (k₀, v₀) :: dictInsert k v t

/-- Python dict deletion `del cache[key]`. -/
def dictErase (k : String) (c : Cache) : Cache :=
  c.filter (fun kv => !(kv.1 = k))

/-- The slice of st.session_state that src/utils/gsheet.py reads and
writes.  A `none` field models the key being absent from the session (the
`'x' in st.session_state` tests); `sheets_client = some ()` models a
stored, truthy client object. -/
structure SessionState where
  global_gsheets_creds : Option Creds
  sheets_client : Option Unit
  sheets_cache : Option Cache
deriving DecidableEq

/-- Lookup in an optionally-present cache dictionary. -/
def cache_lookup (oc : Option Cache) (k : String) : Option CacheEntry :=
  match oc with
  | some c => dictLookup k c
  | none => none

/-! ### Oracles for the remote world -/

/-- Outcome of building a fresh gspread client (the
from_json_keyfile_dict/authorize calls): success or a raised exception
with message `msg`. -/
inductive ClientOutcome
  | ok
  | failure (msg : String)
deriving DecidableEq

/-- Outcome of the remote read sequence in get_sheet_data (open_by_key,
worksheet resolution, get_all_records): the fetched records together with
the resolved spreadsheet and worksheet titles, or one of the exceptions
the source handles (gspread.SpreadsheetNotFound, gspread.WorksheetNotFound,
any other exception with message `msg`). -/
inductive RemoteFetch
  | ok (records : List Row) (sheet_title worksheet_title : String)
  | spreadsheetNotFound
  | worksheetNotFound
  | failure (msg : String)
deriving DecidableEq

/-- The external world visible to one get_sheet_data call: the wall-clock
time (both time.time() reads within the call are modelled by the same
instant) and the remote outcomes. -/
structure FetchEnv where
  now : Int
  auth : ClientOutcome
  fetch : RemoteFetch
deriving DecidableEq

/-- Outcome of the remote write sequence of append_row_to_sheet or
update_sheet_data (open, resolve worksheet, write): success or any raised
exception with message `msg`. -/
inductive WriteOutcome
  | ok
  | failure (msg : String)
deriving DecidableEq

/-- The external world visible to one mutator call. -/
structure WriteEnv where
  auth : ClientOutcome
  write : WriteOutcome
deriving DecidableEq

/-! ### The core operations -/

/-- get_gsheet_client (src/utils/gsheet.py lines 9-36).  Returns the
(client, status) pair and the possibly-updated session state.  The
`try/except` of the source is the totality of this function together with
the `failure` branch. -/
def get_gsheet_client (st : SessionState) (auth : ClientOutcome) :
    (Option Unit × String) × SessionState :=
  match st.global_gsheets_creds with
  | none => ((none, "Google Sheets credentials not configured"), st)
  | some _ =>
    match st.sheets_client with
    | some c => ((some c, "Success"), st)
    | none =>
      match auth with
      | ClientOutcome.ok => ((some (), "Success"), { st with sheets_client := some () })
      | ClientOutcome.failure msg => ((none, "Error creating client: " ++ msg), st)

/-- Python `worksheet_name or 'default'` (src/utils/gsheet.py line 85):
`None` and the empty string are falsy. -/
def pyOrDefault (wn : Option String) : String :=
  match wn with
  | none => "default"
  | some s => if s = "" then "default" else s

/-- The cache key `f"{sheet_id}_{worksheet_name or 'default'}"` computed
from the already-normalized sheet id. -/
def mk_cache_key (sid : String) (wn : Option String) : String :=
  sid ++ "_" ++ pyOrDefault wn

/-- Python f-string rendering of an optional string (None prints as
"None"), used by the WorksheetNotFound message on line 139. -/
def pyStrOfOpt (wn : Option String) : String :=
  match wn with
  | some s => s
  | none => "None"

/-- The cache consultation of get_sheet_data (src/utils/gsheet.py lines
87-94): with use_cache set, a sheets_cache dictionary present, an entry
under the key present and strictly younger than 300 seconds, the entry
snapshot is served; in every other case the call falls through to the
remote fetch. -/
def cache_fresh_hit (st : SessionState) (now : Int) (key : String)
    (use_cache : Bool) : Option DataFrame :=
  if use_cache then
    match st.sheets_cache with
    | some cache =>
      match dictLookup key cache with
      | some entry => if now - entry.timestamp < 300 then some entry.data else none
      | none => none
    | none => none
  else none

/-- The data cleaning applied to the fetched records (lines 117-121):
`pd.DataFrame(records)` keeps the records as rows; `dropna(how='all')`
drops a row all of whose fields are missing; the column filter drops
columns whose name starts with "Unnamed". -/
def clean_df (records : List Row) : DataFrame :=
  (records.filter (fun r => !r.isEmpty)).map
    (fun r => r.filter (fun kv => !("Unnamed".isPrefixOf kv.1)))

/-- The remote-fetch-and-store path of get_sheet_data (src/utils/gsheet.py
lines 96-141): obtain a client, perform the remote read, on a nonempty
result clean it and store a new cache entry under `key`, and translate
each handled exception into its (None, message) result. -/
def fetch_fresh (st : SessionState) (env : FetchEnv) (key : String)
    (worksheet_name : Option String) : (Option DataFrame × String) × SessionState :=
  match get_gsheet_client st env.auth with
  | ((none, err), st₁) => ((none, err), st₁)
  | ((some _, _), st₁) =>
    match env.fetch with
    | RemoteFetch.spreadsheetNotFound =>
        ((none, "Spreadsheet not found. Check the sheet ID and sharing permissions."), st₁)
    | RemoteFetch.worksheetNotFound =>
        ((none, "Worksheet \x27" ++ pyStrOfOpt worksheet_name ++ "\x27 not found."), st₁)
    | RemoteFetch.failure msg =>
        ((none, "Error loading sheet data: " ++ msg), st₁)
    | RemoteFetch.ok records s_title w_title =>
      if records.isEmpty then ((some [], "Success (empty sheet)"), st₁)
      else
        let df := clean_df records
        let cache₀ := match st₁.sheets_cache with
          | some c => c
          | none => []
        let cache₁ := dictInsert key ⟨df, env.now, s_title, w_title⟩ cache₀
        ((some df, "Success"), { st₁ with sheets_cache := some cache₁ })

/-- get_sheet_data (src/utils/gsheet.py lines 81-141). -/
def get_sheet_data (st : SessionState) (env : FetchEnv) (sheet_id : String)
    (worksheet_name : Option String) (use_cache : Bool) :
    (Option DataFrame × String) × SessionState :=
  let key := mk_cache_key (extract_sheet_id sheet_id) worksheet_name
  match cache_fresh_hit st env.now key use_cache with
  | some df => ((some df, "Success (cached)"), st)
  | none => fetch_fresh st env key worksheet_name

/-- append_row_to_sheet (src/utils/gsheet.py lines 143-168). -/
def append_row_to_sheet (st : SessionState) (env : WriteEnv) (sheet_id : String)
    (row_data : List String) (worksheet_name : Option String) :
    (Bool × String) × SessionState :=
  match get_gsheet_client st env.auth with
  | ((none, err), st₁) => ((false, err), st₁)
  | ((some _, _), st₁) =>
    match env.write with
    | WriteOutcome.failure msg => ((false, "Error appending row: " ++ msg), st₁)
    | WriteOutcome.ok =>
      let key := mk_cache_key (extract_sheet_id sheet_id) worksheet_name
      let st₂ :=
        match st₁.sheets_cache with
        | some c =>
          if (dictLookup key c).isSome then
            { st₁ with sheets_cache := some (dictErase key c) }
          else st₁
        | none => st₁
      ((true, "Row appended successfully"), st₂)

/-- update_sheet_data (src/utils/gsheet.py lines 170-199).  The payload
construction (header row plus record rows) is part of the remote write and
is absorbed into the `WriteOutcome` oracle; no claim depends on it. -/
def update_sheet_data (st : SessionState) (env : WriteEnv) (sheet_id : String)
    (df : DataFrame) (worksheet_name : Option String) :
    (Bool × String) × SessionState :=
  match get_gsheet_client st env.auth with
  | ((none, err), st₁) => ((false, err), st₁)
  | ((some _, _), st₁) =>
    match env.write with
    | WriteOutcome.failure msg => ((false, "Error updating sheet: " ++ msg), st₁)
    | WriteOutcome.ok =>
      let key := mk_cache_key (extract_sheet_id sheet_id) worksheet_name
      let st₂ :=
        match st₁.sheets_cache with
        | some c =>
          if (dictLookup key c).isSome then
            { st₁ with sheets_cache := some (dictErase key c) }
          else st₁
        | none => st₁
      ((true, "Sheet updated successfully"), st₂)

/-! ### Credential-upload validation (src/login.py) -/

/-- The required_fields list of show_login (src/login.py line 70). -/
def required_fields : List String :=
  ["type", "project_id", "private_key", "client_email", "private_key_id"]

/-- Python dict key membership `field in creds_data`. -/
def hasField (creds : Creds) (f : String) : Bool :=
  creds.any (fun kv => kv.1 = f)

/-- The missing_fields computation of show_login (src/login.py line 71). -/
def missing_fields (creds : Creds) : List String :=
  required_fields.filter (fun f => !hasField creds f)

/-- The required-field validation step of show_login (src/login.py lines
70-95): `none` means the upload passes validation and proceeds to the
connection test; `some msg` is the rejection message shown on line 95. -/
def validate_creds_upload (creds : Creds) : Option String :=
  if missing_fields creds = [] then none
  else some ("❌ Invalid service account JSON. Missing fields: " ++
    String.intercalate ", " (missing_fields creds))

/-! ### Concrete fixtures used by the witness theorems -/

/-- Fixture: a one-record snapshot. -/
def sampleDf : DataFrame := [[("A", "1")]]

/-- Fixture: a cache entry fetched at time 700. -/
def sampleEntry : CacheEntry := ⟨sampleDf, 700, "T", "W"⟩

/-- Fixture: a cache holding `sampleEntry` for sheet "abc", default worksheet. -/
def sampleCache : Cache := [("abc_default", sampleEntry)]

/-- Fixture: a session with credentials, a client and `sampleCache`. -/
def stWithCache : SessionState := ⟨some [], some (), some sampleCache⟩

/-- Fixture: a fully unconfigured session. -/
def stNoCreds : SessionState := ⟨none, none, none⟩

/-- Fixture: no credentials, but `sampleCache` is present. -/
def stNoCredsCache : SessionState := ⟨none, none, some sampleCache⟩

/-- Fixture: credentials and client present, empty cache dictionary. -/
def stReady : SessionState := ⟨some [], some (), some []⟩

/-! ### Lemmas about the string primitives -/

theorem isPrefixOf_nil_right {sep : List Char} (hsep : sep ≠ []) :
    sep.isPrefixOf ([] : List Char) = false := by
  cases sep with
  | nil => exact absurd rfl hsep
  | cons a as => rfl

theorem length_pos_of_ne_nil {sep : List Char} (hsep : sep ≠ []) :
    0 < sep.length := by
  cases sep with
  | nil => exact absurd rfl hsep
  | cons a as => simp

theorem pySplitF_fuel_irrel (sep : List Char) (hsep : sep ≠ []) :
    ∀ f₁ f₂ l, l.length < f₁ → l.length < f₂ →
      pySplitF sep f₁ l = pySplitF sep f₂ l := by
  intro f₁
  induction f₁ with
  | zero => intro f₂ l h₁ _; omega
  | succ a ih =>
    intro f₂ l h₁ h₂
    match f₂, l with
    | 0, l => omega
    | b + 1, [] => rfl
    | b + 1, c :: rest =>
      by_cases hpre : sep.isPrefixOf (c :: rest) = true
      · have hdrop : ((c :: rest).drop sep.length).length < a := by
          have := length_pos_of_ne_nil hsep
          simp only [List.length_drop, List.length_cons]
          simp only [List.length_cons] at h₁
          omega
        have hdrop' : ((c :: rest).drop sep.length).length < b := by
          have := length_pos_of_ne_nil hsep
          simp only [List.length_drop, List.length_cons]
          simp only [List.length_cons] at h₂
          omega
        simp only [pySplitF, hpre, if_true]
        rw [ih b _ hdrop hdrop']
      · have hrest : rest.length < a := by
          simp only [List.length_cons] at h₁; omega
        have hrest' : rest.length < b := by
          simp only [List.length_cons] at h₂; omega
        simp only [pySplitF, hpre, if_false, Bool.false_eq_true]
        rw [ih b rest hrest hrest']

theorem pySplit_getD_zero (sep : List Char) :
    ∀ fuel l, l.length < fuel →
      (pySplitF sep fuel l).getD 0 [] = beforeFirstSub sep l := by
  intro fuel
  induction fuel with
  | zero => intro l h; omega
  | succ a ih =>
    intro l h
    match l with
    | [] => rfl
    | c :: rest =>
      by_cases hpre : sep.isPrefixOf (c :: rest) = true
      · simp [pySplitF, beforeFirstSub, hpre]
      · have hrest : rest.length < a := by
          simp only [List.length_cons] at h; omega
        simp only [pySplitF, hpre, if_false, Bool.false_eq_true]
        have := ih rest hrest
        match hps : pySplitF sep a rest with
        | [] =>
          rw [hps] at this
          simp only [List.getD] at this ⊢
          simp [beforeFirstSub, hpre, ← this]
        | h₀ :: t =>
          rw [hps] at this
          simp only [List.getD] at this ⊢
          simp [beforeFirstSub, hpre, ← this]

theorem pySplit_structure (sep : List Char) (hsep : sep ≠ []) :
    ∀ fuel l, l.length < fuel → containsSub sep l = true →
      pySplitF sep fuel l =
        beforeFirstSub sep l :: pySplit sep (afterFirstSub sep l) := by
  intro fuel
  induction fuel with
  | zero => intro l h; omega
  | succ a ih =>
    intro l h hc
    match l with
    | [] =>
      exfalso
      simp only [containsSub, List.isEmpty_iff] at hc
      exact hsep hc
    | c :: rest =>
      by_cases hpre : sep.isPrefixOf (c :: rest) = true
      · simp only [pySplitF, hpre, if_true, beforeFirstSub, afterFirstSub]
        have hdrop : ((c :: rest).drop sep.length).length < a := by
          have := length_pos_of_ne_nil hsep
          simp only [List.length_drop, List.length_cons]
          simp only [List.length_cons] at h
          omega
        rw [pySplitF_fuel_irrel sep hsep a (((c :: rest).drop sep.length).length + 1)
              _ hdrop (Nat.lt_succ_self _)]
        rfl
      · have hrest : rest.length < a := by
          simp only [List.length_cons] at h; omega
        have hcrest : containsSub sep rest = true := by
          simp only [containsSub, Bool.or_eq_true] at hc
          rcases hc with hc | hc
          · exact absurd hc hpre
          · exact hc
        simp only [pySplitF, hpre, if_false, Bool.false_eq_true]
        rw [ih rest hrest hcrest]
        simp [beforeFirstSub, afterFirstSub, hpre]

theorem beforeFirstSub_slash_eq_takeWhile :
    ∀ t : List Char,
      beforeFirstSub slashChars t = t.takeWhile (fun c => !(c == '/')) := by
  intro t
  induction t with
  | nil => rfl
  | cons c rest ih =>
    by_cases hc : c = '/'
    · subst hc
      simp [beforeFirstSub, slashChars, List.isPrefixOf, List.takeWhile]
    · have hpre : slashChars.isPrefixOf (c :: rest) = false := by
        simp [slashChars, List.isPrefixOf]
        intro h; exact absurd h.symm hc
      simp only [beforeFirstSub, hpre, if_false, Bool.false_eq_true, List.takeWhile]
      have hbc : (!(c == '/')) = true := by
        simp [hc]
      rw [hbc]
      simp [ih]

theorem head_slash_of_isPrefixOf_dSep {c : Char} {rest : List Char}
    (h : dSepChars.isPrefixOf (c :: rest) = true) : c = '/' := by
  simp only [dSepChars, List.isPrefixOf, Bool.and_eq_true, beq_iff_eq] at h
  exact h.1.symm

theorem takeWhile_beforeFirstSub_dSep :
    ∀ t : List Char,
      (beforeFirstSub dSepChars t).takeWhile (fun c => !(c == '/')) =
        t.takeWhile (fun c => !(c == '/')) := by
  intro t
  induction t with
  | nil => rfl
  | cons c rest ih =>
    by_cases hpre : dSepChars.isPrefixOf (c :: rest) = true
    · have hc : c = '/' := head_slash_of_isPrefixOf_dSep hpre
      subst hc
      simp [beforeFirstSub, hpre, List.takeWhile]
    · simp only [beforeFirstSub, hpre, if_false, Bool.false_eq_true]
      by_cases hc : c = '/'
      · subst hc
        simp [List.takeWhile]
      · have hbc : (!(c == '/')) = true := by simp [hc]
        simp only [List.takeWhile, hbc]
        rw [ih]

theorem containsSub_slash_of_containsSub_dSep :
    ∀ l : List Char, containsSub dSepChars l = true →
      containsSub slashChars l = true := by
  intro l
  induction l with
  | nil => intro h; simp [containsSub, dSepChars] at h
  | cons c rest ih =>
    intro h
    simp only [containsSub, Bool.or_eq_true] at h ⊢
    rcases h with h | h
    · left
      have hc : c = '/' := head_slash_of_isPrefixOf_dSep h
      subst hc
      simp [slashChars, List.isPrefixOf]
    · right; exact ih h

theorem containsSub_nil_of_ne {sep : List Char} (hsep : sep ≠ []) :
    containsSub sep ([] : List Char) = false := by
  simp [containsSub, List.isEmpty_iff, hsep]

/-- Core of claim C7, on character lists: on input containing "/d/" the
source function returns the substring after the first "/d/" up to the next
"/". -/
theorem extractCore_dSep {l : List Char} (h : containsSub dSepChars l = true) :
    extractCore l = specNormalize l := by
  have hne : l ≠ [] := by
    intro he; subst he
    rw [containsSub_nil_of_ne (by simp [dSepChars])] at h
    exact Bool.false_ne_true h
  have hslash : containsSub slashChars l = true :=
    containsSub_slash_of_containsSub_dSep l h
  have hd : dSepChars ≠ [] := by simp [dSepChars]
  have hs : slashChars ≠ [] := by simp [slashChars]
  simp only [extractCore, if_neg hne, hslash, Bool.true_eq_false, if_false, h, if_true]
  rw [show pySplit dSepChars l = pySplitF dSepChars (l.length + 1) l from rfl]
  rw [pySplit_structure dSepChars hd (l.length + 1) l (Nat.lt_succ_self _) h]
  rw [List.getD_cons_succ]
  rw [show (pySplit dSepChars (afterFirstSub dSepChars l)).getD 0 [] =
        beforeFirstSub dSepChars (afterFirstSub dSepChars l) from
      pySplit_getD_zero dSepChars _ _ (Nat.lt_succ_self _)]
  rw [show (pySplit slashChars (beforeFirstSub dSepChars (afterFirstSub dSepChars l))).getD 0 [] =
        beforeFirstSub slashChars (beforeFirstSub dSepChars (afterFirstSub dSepChars l)) from
      pySplit_getD_zero slashChars _ _ (Nat.lt_succ_self _)]
  rw [beforeFirstSub_slash_eq_takeWhile]
  rw [takeWhile_beforeFirstSub_dSep]
  rfl

theorem containsSub_slash_takeWhile :
    ∀ t : List Char,
      containsSub slashChars (t.takeWhile (fun c => !(c == '/'))) = false := by
  intro t
  induction t with
  | nil => rfl
  | cons c rest ih =>
    by_cases hc : c = '/'
    · subst hc
      simp [List.takeWhile, containsSub, slashChars]
    · have hbc : (!(c == '/')) = true := by simp [hc]
      simp only [List.takeWhile, hbc]
      simp only [containsSub, Bool.or_eq_true, ih]
      have hpre : slashChars.isPrefixOf (c :: rest.takeWhile (fun c => !(c == '/'))) = false := by
        simp [slashChars, List.isPrefixOf]
        intro hx; exact absurd hx.symm hc
      simp [hpre]

/-- The source function is the identity on results it produces: applied to
an output of itself it changes nothing (character-list level). -/
theorem extractCore_idem (l : List Char) :
    extractCore (extractCore l) = extractCore l := by
  by_cases hnil : l = []
  · subst hnil; rfl
  · by_cases hslash : containsSub slashChars l = false
    · have : extractCore l = l := by simp [extractCore, hnil, hslash]
      rw [this]
      exact this
    · push_neg at hslash
      have hslash' : containsSub slashChars l = true := by
        cases hx : containsSub slashChars l with
        | false => exact absurd hx hslash
        | true => rfl
      by_cases hd : containsSub dSepChars l = true
      · have hout : extractCore l = specNormalize l := extractCore_dSep hd
        rw [hout]
        have hnos : containsSub slashChars (specNormalize l) = false := by
          simp only [specNormalize]
          exact containsSub_slash_takeWhile _
        by_cases hres : specNormalize l = []
        · rw [hres]; rfl
        · simp [extractCore, hres, hnos]
      · have hdf : containsSub dSepChars l = false := by
          cases hx : containsSub dSepChars l with
          | false => rfl
          | true => exact absurd hx hd
        have : extractCore l = l := by
          simp [extractCore, hnil, hslash', hdf]
        rw [this]
        exact this


/-! ### Association-list (Python dict) lemmas -/

theorem dictLookup_insert_self (k : String) (v : CacheEntry) :
    ∀ c : Cache, dictLookup k (dictInsert k v c) = some v := by
  intro c
  induction c with
  | nil => simp [dictLookup, dictInsert]
  | cons kv t ih =>
    rcases kv with ⟨k₀, v₀⟩
    by_cases h : k₀ = k
    · subst h; simp [dictLookup, dictInsert]
    · simp [dictLookup, dictInsert, h, ih]

theorem dictLookup_insert_ne (k k₁ : String) (v : CacheEntry) (h : k₁ ≠ k) :
    ∀ c : Cache, dictLookup k₁ (dictInsert k v c) = dictLookup k₁ c := by
  have hne : ¬(k = k₁) := fun he => h he.symm
  intro c
  induction c with
  | nil =>
    simp only [dictInsert, dictLookup]
    rw [if_neg hne]
  | cons kv t ih =>
    rcases kv with ⟨k₀, v₀⟩
    by_cases h₀ : k₀ = k
    · subst h₀
      simp only [dictInsert, if_pos rfl, dictLookup]
      rw [if_neg hne, if_neg hne]
    · simp only [dictInsert, if_neg h₀, dictLookup]
      by_cases h₁ : k₀ = k₁
      · rw [if_pos h₁, if_pos h₁]
      · rw [if_neg h₁, if_neg h₁, ih]

theorem dictLookup_erase_self (k : String) :
    ∀ c : Cache, dictLookup k (dictErase k c) = none := by
  intro c
  induction c with
  | nil => rfl
  | cons kv t ih =>
    rcases kv with ⟨k₀, v₀⟩
    by_cases h : k₀ = k
    · subst h; simpa [dictErase] using ih
    · simp only [dictErase, List.filter] at ih ⊢
      simp [h, dictLookup, ih]

theorem dictLookup_erase_ne (k k₁ : String) (h : k₁ ≠ k) :
    ∀ c : Cache, dictLookup k₁ (dictErase k c) = dictLookup k₁ c := by
  intro c
  induction c with
  | nil => rfl
  | cons kv t ih =>
    rcases kv with ⟨k₀, v₀⟩
    by_cases h₀ : k₀ = k
    · subst h₀
      have : ¬(k₀ = k₁) := fun he => h he.symm
      simp only [dictErase, List.filter] at ih ⊢
      simp [dictLookup, this, ih]
    · simp only [dictErase, List.filter] at ih ⊢
      by_cases h₁ : k₀ = k₁
      · subst h₁; simp [dictLookup, h₀]
      · simp [dictLookup, h₀, h₁, ih]

/-! ### Helper lemmas about the operations -/

theorem get_gsheet_client_preserves (st : SessionState) (auth : ClientOutcome) :
    (get_gsheet_client st auth).2.sheets_cache = st.sheets_cache ∧
    (get_gsheet_client st auth).2.global_gsheets_creds = st.global_gsheets_creds := by
  rcases st with ⟨creds, cl, oc⟩
  cases creds <;> cases cl <;> cases auth <;> simp [get_gsheet_client]

theorem ne_empty_append (s t : String) (h : s.data ≠ []) : s ++ t ≠ "" := by
  intro he
  apply h
  have h₂ : (s ++ t).data = ("" : String).data := congrArg String.data he
  rcases s with ⟨sd⟩
  rcases t with ⟨td⟩
  have h₃ : sd ++ td = [] := h₂
  rcases List.append_eq_nil.mp h₃ with ⟨h₄, _⟩
  exact h₄

theorem client_result_shape (st : SessionState) (auth : ClientOutcome) :
    ((get_gsheet_client st auth).1.1 = none ∧ (get_gsheet_client st auth).1.2 ≠ "") ∨
      (get_gsheet_client st auth).1 = (some (), "Success") := by
  rcases st with ⟨creds, cl, oc⟩
  cases creds with
  | none =>
    refine Or.inl ⟨rfl, ?_⟩
    show ("Google Sheets credentials not configured" : String) ≠ ""
    decide
  | some c =>
    cases cl with
    | some u => exact Or.inr rfl
    | none =>
      cases auth with
      | ok => exact Or.inr rfl
      | failure m => exact Or.inl ⟨rfl, ne_empty_append _ m (by decide)⟩

theorem cache_fresh_hit_none_of_lookup_none (st : SessionState) (key : String)
    (h : cache_lookup st.sheets_cache key = none) :
    ∀ now uc, cache_fresh_hit st now key uc = none := by
  intro now uc
  cases uc with
  | false => rfl
  | true =>
    unfold cache_fresh_hit
    cases hsc : st.sheets_cache with
    | none => simp
    | some c =>
      rw [hsc] at h
      simp only [cache_lookup] at h
      simp [h]

theorem gsd_cache_hit (st : SessionState) (env : FetchEnv) (sheet_id : String)
    (wn : Option String) (cache : Cache) (entry : CacheEntry)
    (hc : st.sheets_cache = some cache)
    (hl : dictLookup (mk_cache_key (extract_sheet_id sheet_id) wn) cache = some entry)
    (hfresh : env.now - entry.timestamp < 300) :
    get_sheet_data st env sheet_id wn true = ((some entry.data, "Success (cached)"), st) := by
  have hhit : cache_fresh_hit st env.now (mk_cache_key (extract_sheet_id sheet_id) wn) true
      = some entry.data := by
    simp [cache_fresh_hit, hc, hl, hfresh]
  simp [get_sheet_data, hhit]

/-! ### Claim theorems for the identifier normalization and validation -/

/-- C7: for every input containing "/d/", extract_sheet_id returns the
substring after the first "/d/" up to the next "/" (`specNormalize`, the
definition written from the spec wording); every input containing no "/"
is returned unchanged; every other input (a "/" but no "/d/") is returned
unchanged. -/
theorem extract_sheet_id_matches_spec (s : String) :
    (containsSub dSepChars s.data = true →
      (extract_sheet_id s).data = specNormalize s.data) ∧
    (containsSub slashChars s.data = false → extract_sheet_id s = s) ∧
    (containsSub slashChars s.data = true → containsSub dSepChars s.data = false →
      extract_sheet_id s = s) := by
  refine ⟨?_, ?_, ?_⟩
  · intro h
    show extractCore s.data = specNormalize s.data
    exact extractCore_dSep h
  · intro h
    show (⟨extractCore s.data⟩ : String) = s
    by_cases hnil : s.data = []
    · rw [show extractCore s.data = s.data by simp [extractCore, hnil]]
    · rw [show extractCore s.data = s.data by simp [extractCore, hnil, h]]
  · intro hs hd
    show (⟨extractCore s.data⟩ : String) = s
    have hnil : s.data ≠ [] := by
      intro he
      rw [he] at hs
      rw [containsSub_nil_of_ne (by simp [slashChars])] at hs
      exact Bool.false_ne_true hs
    rw [show extractCore s.data = s.data by simp [extractCore, hnil, hs, hd]]

/-- Witness for the C7 theorem at concrete inputs: a full URL, a bare id,
and a slash-containing string without "/d/". -/
theorem extract_sheet_id_matches_spec_witness :
    (extract_sheet_id "https://docs.google.com/spreadsheets/d/ABC123/edit").data
        = specNormalize "https://docs.google.com/spreadsheets/d/ABC123/edit".data ∧
    extract_sheet_id "1BxiMVs0XRA5nFMdK" = "1BxiMVs0XRA5nFMdK" ∧
    extract_sheet_id "docs.google.com/u/0/edit" = "docs.google.com/u/0/edit" := by
  refine ⟨?_, ?_, ?_⟩
  · exact (extract_sheet_id_matches_spec _).1 (by decide)
  · exact (extract_sheet_id_matches_spec _).2.1 (by decide)
  · exact (extract_sheet_id_matches_spec _).2.2 (by decide) (by decide)

/-- C8: extract_sheet_id is idempotent. -/
theorem extract_sheet_id_idempotent (s : String) :
    extract_sheet_id (extract_sheet_id s) = extract_sheet_id s := by
  show (⟨extractCore (extractCore s.data)⟩ : String) = ⟨extractCore s.data⟩
  exact congrArg (fun l => (⟨l⟩ : String)) (extractCore_idem s.data)

/-- C10: the upload validation checks exactly the five required keys,
rejects any credential object missing one or more of them with a message
listing every missing key by name, and in particular rejects
a credential carrying only the "type" key reporting the other four. -/
theorem credential_validation (creds : Creds) :
    (validate_creds_upload creds = none ↔
      ∀ f ∈ required_fields, hasField creds f = true) ∧
    (missing_fields creds ≠ [] →
      validate_creds_upload creds =
        some ("❌ Invalid service account JSON. Missing fields: " ++
          String.intercalate ", " (missing_fields creds))) ∧
    (∀ f ∈ required_fields, hasField creds f = false → f ∈ missing_fields creds) ∧
    validate_creds_upload [("type", "service_account")] =
      some "❌ Invalid service account JSON. Missing fields: project_id, private_key, client_email, private_key_id" := by
  refine ⟨?_, ?_, ?_, ?_⟩
  · constructor
    · intro h f hf
      by_cases hm : missing_fields creds = []
      · have : ∀ g ∈ required_fields, ¬(!hasField creds g) = true := by
          rw [← List.filter_eq_nil_iff]
          exact hm
        have h₂ := this f hf
        simp only [Bool.not_eq_true'] at h₂
        cases hx : hasField creds f with
        | false => exact absurd hx h₂
        | true => rfl
      · exfalso
        simp [validate_creds_upload, hm] at h
    · intro h
      have hm : missing_fields creds = [] := by
        simp only [missing_fields]
        rw [List.filter_eq_nil_iff]
        intro f hf
        simp [h f hf]
      simp [validate_creds_upload, hm]
  · intro hm
    simp [validate_creds_upload, hm]
  · intro f hf hnf
    simp only [missing_fields, List.mem_filter]
    exact ⟨hf, by simp [hnf]⟩
  · rfl

/-- Witness for the C10 theorem: the rejection branch fires on the
credential object carrying only the "type" key, with the message listing
the four missing keys. -/
theorem credential_validation_witness :
    validate_creds_upload [("type", "service_account")] =
      some ("❌ Invalid service account JSON. Missing fields: " ++
        String.intercalate ", " (missing_fields [("type", "service_account")])) :=
  (credential_validation [("type", "service_account")]).2.1 (by decide)

/-! ### Claim theorems for the cache behaviour -/

/-- C1: with useCache set and a stored entry strictly younger than 300
seconds, get_sheet_data returns that entry snapshot with status
"Success (cached)" and an unchanged session state — and since the
conclusion holds for every `env`, in particular for envs whose remote
oracles fail, the result does not depend on the remote world at all (no
remote access).  An entry aged 300 seconds or more is never served: the
call is the remote-fetch path `fetch_fresh`. -/
theorem get_sheet_data_cache_freshness (st : SessionState) (env : FetchEnv)
    (sheet_id : String) (wn : Option String) (cache : Cache) (entry : CacheEntry)
    (hc : st.sheets_cache = some cache)
    (hl : dictLookup (mk_cache_key (extract_sheet_id sheet_id) wn) cache = some entry) :
    (env.now - entry.timestamp < 300 →
      get_sheet_data st env sheet_id wn true = ((some entry.data, "Success (cached)"), st)) ∧
    (300 ≤ env.now - entry.timestamp →
      get_sheet_data st env sheet_id wn true =
        fetch_fresh st env (mk_cache_key (extract_sheet_id sheet_id) wn) wn) := by
  constructor
  · intro hfresh
    exact gsd_cache_hit st env sheet_id wn cache entry hc hl hfresh
  · intro hstale
    have hmiss : cache_fresh_hit st env.now (mk_cache_key (extract_sheet_id sheet_id) wn) true
        = none := by
      simp only [cache_fresh_hit, hc, hl, if_true]
      rw [if_neg (by omega)]
    simp [get_sheet_data, hmiss]

/-- Witness for the C1 theorem: at age 299 the entry is served from cache
even though both remote oracles would fail; at age 300 the call is the
remote-fetch path. -/
theorem get_sheet_data_cache_freshness_witness :
    get_sheet_data stWithCache
        ⟨999, ClientOutcome.failure "offline", RemoteFetch.failure "offline"⟩
        "abc" none true = ((some sampleDf, "Success (cached)"), stWithCache) ∧
    get_sheet_data stWithCache ⟨1000, ClientOutcome.ok, RemoteFetch.ok [[("A", "2")]] "T" "W"⟩
        "abc" none true =
      fetch_fresh stWithCache ⟨1000, ClientOutcome.ok, RemoteFetch.ok [[("A", "2")]] "T" "W"⟩
        (mk_cache_key (extract_sheet_id "abc") none) none := by
  constructor
  · exact (get_sheet_data_cache_freshness stWithCache
      ⟨999, ClientOutcome.failure "offline", RemoteFetch.failure "offline"⟩
      "abc" none sampleCache sampleEntry rfl (by decide)).1 (by decide)
  · exact (get_sheet_data_cache_freshness stWithCache
      ⟨1000, ClientOutcome.ok, RemoteFetch.ok [[("A", "2")]] "T" "W"⟩
      "abc" none sampleCache sampleEntry rfl (by decide)).2 (by decide)

/-- C4: with no credential configured and no usable cache entry (the cache
consultation misses), get_sheet_data returns
(None, "Google Sheets credentials not configured") and leaves the session
state — in particular the cache — completely unchanged. -/
theorem get_sheet_data_no_credentials (st : SessionState) (env : FetchEnv)
    (sheet_id : String) (wn : Option String) (use_cache : Bool)
    (hcred : st.global_gsheets_creds = none)
    (hmiss : cache_fresh_hit st env.now (mk_cache_key (extract_sheet_id sheet_id) wn) use_cache
      = none) :
    get_sheet_data st env sheet_id wn use_cache =
      ((none, "Google Sheets credentials not configured"), st) := by
  simp only [get_sheet_data, hmiss]
  simp [fetch_fresh, get_gsheet_client, hcred]

/-- Witness for the C4 theorem on an unconfigured session. -/
theorem get_sheet_data_no_credentials_witness :
    get_sheet_data stNoCreds ⟨0, ClientOutcome.ok, RemoteFetch.failure "x"⟩ "anyId" none true =
      ((none, "Google Sheets credentials not configured"), stNoCreds) :=
  get_sheet_data_no_credentials stNoCreds ⟨0, ClientOutcome.ok, RemoteFetch.failure "x"⟩
    "anyId" none true rfl (by decide)

/-- C5: the cache consultation precedes the credential check, so a fresh
cache hit is served even when no credential is configured. -/
theorem get_sheet_data_cache_hit_needs_no_credentials (st : SessionState) (env : FetchEnv)
    (sheet_id : String) (wn : Option String) (cache : Cache) (entry : CacheEntry)
    (hcred : st.global_gsheets_creds = none)
    (hc : st.sheets_cache = some cache)
    (hl : dictLookup (mk_cache_key (extract_sheet_id sheet_id) wn) cache = some entry)
    (hfresh : env.now - entry.timestamp < 300) :
    get_sheet_data st env sheet_id wn true = ((some entry.data, "Success (cached)"), st) :=
  gsd_cache_hit st env sheet_id wn cache entry hc hl hfresh

/-- Witness for the C5 theorem: a session without credentials still serves
the fresh entry. -/
theorem get_sheet_data_cache_hit_needs_no_credentials_witness :
    get_sheet_data stNoCredsCache ⟨800, ClientOutcome.failure "no creds",
        RemoteFetch.failure "no creds"⟩ "abc" none true =
      ((some sampleDf, "Success (cached)"), stNoCredsCache) :=
  get_sheet_data_cache_hit_needs_no_credentials stNoCredsCache
    ⟨800, ClientOutcome.failure "no creds", RemoteFetch.failure "no creds"⟩
    "abc" none sampleCache sampleEntry rfl rfl (by decide) (by decide)

/-- C9: a remote read that yields zero records produces the result
(empty snapshot, "Success (empty sheet)") — a success, not an error. -/
theorem get_sheet_data_empty_sheet (st : SessionState) (env : FetchEnv)
    (sheet_id : String) (wn : Option String) (use_cache : Bool) (s_t w_t : String)
    (hmiss : cache_fresh_hit st env.now (mk_cache_key (extract_sheet_id sheet_id) wn) use_cache
      = none)
    (hclient : (get_gsheet_client st env.auth).1.1 = some ())
    (hfetch : env.fetch = RemoteFetch.ok [] s_t w_t) :
    (get_sheet_data st env sheet_id wn use_cache).1 = (some [], "Success (empty sheet)") := by
  rcases hgc : get_gsheet_client st env.auth with ⟨⟨oc, m⟩, st₁⟩
  rw [hgc] at hclient
  simp only at hclient
  subst hclient
  simp [get_sheet_data, hmiss, fetch_fresh, hgc, hfetch]

/-- Witness for the C9 theorem on a ready session and an empty worksheet. -/
theorem get_sheet_data_empty_sheet_witness :
    (get_sheet_data stReady ⟨0, ClientOutcome.ok, RemoteFetch.ok [] "T" "W"⟩
        "s1" none true).1 = (some [], "Success (empty sheet)") :=
  get_sheet_data_empty_sheet stReady ⟨0, ClientOutcome.ok, RemoteFetch.ok [] "T" "W"⟩
    "s1" none true "T" "W" (by decide) rfl rfl

/-- C2, counterexample: the claim quantifies over every call that reaches
the remote worksheet and fetches its records without error, but a call
whose successful fetch yields zero records stores nothing: with an empty
cache dictionary, credentials and a client present, and a successful
remote read of an empty worksheet, the call returns
"Success (empty sheet)" and the session state is completely unchanged —
no cache entry appears under the computed key "abc_default". -/
theorem get_sheet_data_stores_snapshot_counterexample :
    (get_sheet_data stReady ⟨1000, ClientOutcome.ok, RemoteFetch.ok [] "T" "W"⟩
        "abc" none true).1.2 = "Success (empty sheet)" ∧
    (get_sheet_data stReady ⟨1000, ClientOutcome.ok, RemoteFetch.ok [] "T" "W"⟩
        "abc" none true).2 = stReady ∧
    cache_lookup (get_sheet_data stReady ⟨1000, ClientOutcome.ok, RemoteFetch.ok [] "T" "W"⟩
        "abc" none true).2.sheets_cache (mk_cache_key (extract_sheet_id "abc") none) = none := by
  refine ⟨rfl, rfl, ?_⟩
  decide

/-- C2 as amended: every call whose remote read succeeds with a nonzero
number of records stores the cleaned snapshot, the call timestamp and the
resolved titles as a new cache entry under the computed key, replacing any
prior entry for that key wholesale, and touches no other key. -/
theorem get_sheet_data_stores_nonempty (st : SessionState) (env : FetchEnv)
    (sheet_id : String) (wn : Option String) (use_cache : Bool)
    (records : List Row) (s_t w_t : String)
    (hmiss : cache_fresh_hit st env.now (mk_cache_key (extract_sheet_id sheet_id) wn) use_cache
      = none)
    (hclient : (get_gsheet_client st env.auth).1.1 = some ())
    (hfetch : env.fetch = RemoteFetch.ok records s_t w_t)
    (hne : records ≠ []) :
    (get_sheet_data st env sheet_id wn use_cache).1 = (some (clean_df records), "Success") ∧
    cache_lookup (get_sheet_data st env sheet_id wn use_cache).2.sheets_cache
        (mk_cache_key (extract_sheet_id sheet_id) wn) =
      some ⟨clean_df records, env.now, s_t, w_t⟩ ∧
    (∀ k, k ≠ mk_cache_key (extract_sheet_id sheet_id) wn →
      cache_lookup (get_sheet_data st env sheet_id wn use_cache).2.sheets_cache k =
        cache_lookup st.sheets_cache k) := by
  rcases hgc : get_gsheet_client st env.auth with ⟨⟨oc, m⟩, st₁⟩
  rw [hgc] at hclient
  simp only at hclient
  subst hclient
  have hpres := (get_gsheet_client_preserves st env.auth).1
  rw [hgc] at hpres
  simp only at hpres
  have hie : records.isEmpty = false := by
    cases records with
    | nil => exact absurd rfl hne
    | cons a t => rfl
  simp only [get_sheet_data, hmiss, fetch_fresh, hgc, hfetch, hie, Bool.false_eq_true,
    if_false, cache_lookup]
  refine ⟨trivial, ?_, ?_⟩
  · exact dictLookup_insert_self _ _ _
  · intro k hk
    rw [dictLookup_insert_ne _ _ _ hk]
    rw [← hpres]
    cases st₁.sheets_cache <;> rfl

/-- Witness for the amended C2 theorem: a fetch of one record on a ready
session stores exactly the cleaned snapshot with the call timestamp and
titles under "s1_default". -/
theorem get_sheet_data_stores_nonempty_witness :
    (get_sheet_data stReady ⟨50, ClientOutcome.ok, RemoteFetch.ok [[("A", "1")]] "T" "W"⟩
        "s1" none true).1 = (some (clean_df [[("A", "1")]]), "Success") ∧
    cache_lookup (get_sheet_data stReady
        ⟨50, ClientOutcome.ok, RemoteFetch.ok [[("A", "1")]] "T" "W"⟩
        "s1" none true).2.sheets_cache (mk_cache_key (extract_sheet_id "s1") none) =
      some ⟨clean_df [[("A", "1")]], 50, "T", "W"⟩ := by
  constructor
  · exact (get_sheet_data_stores_nonempty stReady
      ⟨50, ClientOutcome.ok, RemoteFetch.ok [[("A", "1")]] "T" "W"⟩
      "s1" none true [[("A", "1")]] "T" "W" (by decide) rfl rfl (by decide)).1
  · exact (get_sheet_data_stores_nonempty stReady
      ⟨50, ClientOutcome.ok, RemoteFetch.ok [[("A", "1")]] "T" "W"⟩
      "s1" none true [[("A", "1")]] "T" "W" (by decide) rfl rfl (by decide)).2.1

/-- C3: when append_row_to_sheet succeeds, the cache entry for the key
of the affected sheet and worksheet is absent afterwards, every other key
is untouched (no proactive refetch, no new entry), and the next
get_sheet_data call for that key is the remote-fetch path `fetch_fresh` —
it cannot return the pre-append snapshot. -/
theorem append_row_invalidates_cache (st : SessionState) (env : WriteEnv)
    (sheet_id : String) (row_data : List String) (wn : Option String)
    (hok : (append_row_to_sheet st env sheet_id row_data wn).1.1 = true) :
    cache_lookup (append_row_to_sheet st env sheet_id row_data wn).2.sheets_cache
        (mk_cache_key (extract_sheet_id sheet_id) wn) = none ∧
    (∀ k, k ≠ mk_cache_key (extract_sheet_id sheet_id) wn →
      cache_lookup (append_row_to_sheet st env sheet_id row_data wn).2.sheets_cache k =
        cache_lookup st.sheets_cache k) ∧
    (∀ env₂ uc, get_sheet_data (append_row_to_sheet st env sheet_id row_data wn).2 env₂
        sheet_id wn uc =
      fetch_fresh (append_row_to_sheet st env sheet_id row_data wn).2 env₂
        (mk_cache_key (extract_sheet_id sheet_id) wn) wn) := by
  rcases hgc : get_gsheet_client st env.auth with ⟨⟨oc, m⟩, st₁⟩
  have hpres := (get_gsheet_client_preserves st env.auth).1
  rw [hgc] at hpres
  simp only at hpres
  cases oc with
  | none => rw [append_row_to_sheet, hgc] at hok; exact absurd hok (by simp)
  | some u =>
    cases hw : env.write with
    | failure msg =>
      rw [append_row_to_sheet, hgc] at hok
      simp only [hw] at hok
      exact absurd hok (by simp)
    | ok =>
      have hmain :
          cache_lookup (append_row_to_sheet st env sheet_id row_data wn).2.sheets_cache
              (mk_cache_key (extract_sheet_id sheet_id) wn) = none ∧
          (∀ k, k ≠ mk_cache_key (extract_sheet_id sheet_id) wn →
            cache_lookup (append_row_to_sheet st env sheet_id row_data wn).2.sheets_cache k =
              cache_lookup st.sheets_cache k) := by
        cases hsc : st₁.sheets_cache with
        | none =>
          have happ : append_row_to_sheet st env sheet_id row_data wn =
              ((true, "Row appended successfully"), st₁) := by
            simp [append_row_to_sheet, hgc, hw, hsc]
          rw [happ]
          simp only
          rw [hsc, ← hpres, hsc]
          exact ⟨rfl, fun k _ => rfl⟩
        | some c =>
          by_cases hks : (dictLookup (mk_cache_key (extract_sheet_id sheet_id) wn) c).isSome
          · have happ : append_row_to_sheet st env sheet_id row_data wn =
                ((true, "Row appended successfully"),
                  { st₁ with sheets_cache := some (dictErase
                      (mk_cache_key (extract_sheet_id sheet_id) wn) c) }) := by
              simp [append_row_to_sheet, hgc, hw, hsc, hks]
            rw [happ]
            simp only [cache_lookup]
            refine ⟨dictLookup_erase_self _ _, ?_⟩
            intro k hk
            rw [dictLookup_erase_ne _ _ hk]
            rw [← hpres, hsc]
          · have hnone : dictLookup (mk_cache_key (extract_sheet_id sheet_id) wn) c = none := by
              cases hd : dictLookup (mk_cache_key (extract_sheet_id sheet_id) wn) c with
              | none => rfl
              | some v => rw [hd] at hks; exact absurd rfl hks
            have happ : append_row_to_sheet st env sheet_id row_data wn =
                ((true, "Row appended successfully"), st₁) := by
              simp [append_row_to_sheet, hgc, hw, hsc, hks]
            rw [happ]
            simp only
            rw [hsc, ← hpres, hsc]
            exact ⟨hnone, fun k _ => rfl⟩
      refine ⟨hmain.1, hmain.2, ?_⟩
      intro env₂ uc
      have hm := cache_fresh_hit_none_of_lookup_none
        (append_row_to_sheet st env sheet_id row_data wn).2
        (mk_cache_key (extract_sheet_id sheet_id) wn) hmain.1 env₂.now uc
      simp [get_sheet_data, hm]

/-- Witness for the C3 theorem: appending on a session whose cache holds
an entry for "abc"/default deletes exactly that entry. -/
theorem append_row_invalidates_cache_witness :
    cache_lookup (append_row_to_sheet stWithCache ⟨ClientOutcome.ok, WriteOutcome.ok⟩
        "abc" ["x"] none).2.sheets_cache (mk_cache_key (extract_sheet_id "abc") none) = none :=
  (append_row_invalidates_cache stWithCache ⟨ClientOutcome.ok, WriteOutcome.ok⟩
    "abc" ["x"] none (by decide)).1

/-- Result shape of get_sheet_data (helper): either no snapshot and a
nonempty message, or a snapshot and one of the three success statuses. -/
theorem gsd_result_shape (st : SessionState) (env : FetchEnv) (sheet_id : String)
    (wn : Option String) (uc : Bool) :
    ((get_sheet_data st env sheet_id wn uc).1.1 = none ∧
      (get_sheet_data st env sheet_id wn uc).1.2 ≠ "") ∨
    (∃ d, (get_sheet_data st env sheet_id wn uc).1.1 = some d ∧
      ((get_sheet_data st env sheet_id wn uc).1.2 = "Success" ∨
       (get_sheet_data st env sheet_id wn uc).1.2 = "Success (cached)" ∨
       (get_sheet_data st env sheet_id wn uc).1.2 = "Success (empty sheet)")) := by
  rcases hhit : cache_fresh_hit st env.now (mk_cache_key (extract_sheet_id sheet_id) wn) uc
    with _ | d
  case some =>
    right
    exact ⟨d, by simp [get_sheet_data, hhit], Or.inr (Or.inl (by simp [get_sheet_data, hhit]))⟩
  case none =>
    have hg : get_sheet_data st env sheet_id wn uc =
        fetch_fresh st env (mk_cache_key (extract_sheet_id sheet_id) wn) wn := by
      simp [get_sheet_data, hhit]
    rw [hg]
    rcases hgc : get_gsheet_client st env.auth with ⟨⟨oc, m⟩, st₁⟩
    rcases client_result_shape st env.auth with ⟨h₁, h₂⟩ | h₁
    · rw [hgc] at h₁ h₂
      simp only at h₁ h₂
      subst h₁
      exact Or.inl ⟨by simp [fetch_fresh, hgc], by simpa [fetch_fresh, hgc] using h₂⟩
    · rw [hgc] at h₁
      have hoc : oc = some () := congrArg Prod.fst h₁
      subst hoc
      cases hf : env.fetch with
      | spreadsheetNotFound =>
        refine Or.inl ⟨by simp [fetch_fresh, hgc, hf], ?_⟩
        have : (fetch_fresh st env (mk_cache_key (extract_sheet_id sheet_id) wn) wn).1.2 =
            "Spreadsheet not found. Check the sheet ID and sharing permissions." := by
          simp [fetch_fresh, hgc, hf]
        rw [this]; decide
      | worksheetNotFound =>
        refine Or.inl ⟨by simp [fetch_fresh, hgc, hf], ?_⟩
        have : (fetch_fresh st env (mk_cache_key (extract_sheet_id sheet_id) wn) wn).1.2 =
            "Worksheet \x27" ++ (pyStrOfOpt wn ++ "\x27 not found.") := by
          simp [fetch_fresh, hgc, hf, String.append_assoc]
        rw [this]
        exact ne_empty_append _ _ (by decide)
      | failure msg =>
        refine Or.inl ⟨by simp [fetch_fresh, hgc, hf], ?_⟩
        have : (fetch_fresh st env (mk_cache_key (extract_sheet_id sheet_id) wn) wn).1.2 =
            "Error loading sheet data: " ++ msg := by
          simp [fetch_fresh, hgc, hf]
        rw [this]
        exact ne_empty_append _ _ (by decide)
      | ok records s_t w_t =>
        cases hr : records with
        | nil =>
          subst hr
          right
          refine ⟨[], by simp [fetch_fresh, hgc, hf], Or.inr (Or.inr ?_)⟩
          simp [fetch_fresh, hgc, hf]
        | cons r rest =>
          subst hr
          right
          refine ⟨clean_df (r :: rest), ?_, ?_⟩
          · simp [fetch_fresh, hgc, hf]
          · exact Or.inl (by simp [fetch_fresh, hgc, hf])

/-- Result shape of append_row_to_sheet (helper). -/
theorem append_result_shape (st : SessionState) (env : WriteEnv) (sheet_id : String)
    (row_data : List String) (wn : Option String) :
    ((append_row_to_sheet st env sheet_id row_data wn).1.1 = false ∧
      (append_row_to_sheet st env sheet_id row_data wn).1.2 ≠ "") ∨
    (append_row_to_sheet st env sheet_id row_data wn).1 = (true, "Row appended successfully") := by
  rcases hgc : get_gsheet_client st env.auth with ⟨⟨oc, m⟩, st₁⟩
  rcases client_result_shape st env.auth with ⟨h₁, h₂⟩ | h₁
  · rw [hgc] at h₁ h₂
    simp only at h₁ h₂
    subst h₁
    exact Or.inl ⟨by simp [append_row_to_sheet, hgc], by simpa [append_row_to_sheet, hgc] using h₂⟩
  · rw [hgc] at h₁
    have hoc : oc = some () := congrArg Prod.fst h₁
    subst hoc
    cases hw : env.write with
    | failure msg =>
      refine Or.inl ⟨by simp [append_row_to_sheet, hgc, hw], ?_⟩
      have : (append_row_to_sheet st env sheet_id row_data wn).1.2 =
          "Error appending row: " ++ msg := by
        simp [append_row_to_sheet, hgc, hw]
      rw [this]
      exact ne_empty_append _ _ (by decide)
    | ok =>
      right
      simp [append_row_to_sheet, hgc, hw]

/-- Result shape of update_sheet_data (helper). -/
theorem update_result_shape (st : SessionState) (env : WriteEnv) (sheet_id : String)
    (df : DataFrame) (wn : Option String) :
    ((update_sheet_data st env sheet_id df wn).1.1 = false ∧
      (update_sheet_data st env sheet_id df wn).1.2 ≠ "") ∨
    (update_sheet_data st env sheet_id df wn).1 = (true, "Sheet updated successfully") := by
  rcases hgc : get_gsheet_client st env.auth with ⟨⟨oc, m⟩, st₁⟩
  rcases client_result_shape st env.auth with ⟨h₁, h₂⟩ | h₁
  · rw [hgc] at h₁ h₂
    simp only at h₁ h₂
    subst h₁
    exact Or.inl ⟨by simp [update_sheet_data, hgc], by simpa [update_sheet_data, hgc] using h₂⟩
  · rw [hgc] at h₁
    have hoc : oc = some () := congrArg Prod.fst h₁
    subst hoc
    cases hw : env.write with
    | failure msg =>
      refine Or.inl ⟨by simp [update_sheet_data, hgc, hw], ?_⟩
      have : (update_sheet_data st env sheet_id df wn).1.2 =
          "Error updating sheet: " ++ msg := by
        simp [update_sheet_data, hgc, hw]
      rw [this]
      exact ne_empty_append _ _ (by decide)
    | ok =>
      right
      simp [update_sheet_data, hgc, hw]

/-- C6: each core operation is a total function of the session state, its
arguments and the remote-world oracles — so no oracle outcome, in
particular no modelled exception, ever escapes it — and it always returns
a (result, status) pair in which a missing/false result is accompanied by
a nonempty human-readable message and a present result by the exact
success status of the source. -/
theorem core_ops_return_result_pairs (st : SessionState) (auth : ClientOutcome)
    (env : FetchEnv) (wenv₁ wenv₂ : WriteEnv) (sheet_id : String) (wn : Option String)
    (use_cache : Bool) (row_data : List String) (df : DataFrame) :
    (((get_gsheet_client st auth).1.1 = none ∧ (get_gsheet_client st auth).1.2 ≠ "") ∨
      (get_gsheet_client st auth).1 = (some (), "Success")) ∧
    (((get_sheet_data st env sheet_id wn use_cache).1.1 = none ∧
        (get_sheet_data st env sheet_id wn use_cache).1.2 ≠ "") ∨
      (∃ d, (get_sheet_data st env sheet_id wn use_cache).1.1 = some d ∧
        ((get_sheet_data st env sheet_id wn use_cache).1.2 = "Success" ∨
         (get_sheet_data st env sheet_id wn use_cache).1.2 = "Success (cached)" ∨
         (get_sheet_data st env sheet_id wn use_cache).1.2 = "Success (empty sheet)"))) ∧
    (((append_row_to_sheet st wenv₁ sheet_id row_data wn).1.1 = false ∧
        (append_row_to_sheet st wenv₁ sheet_id row_data wn).1.2 ≠ "") ∨
      (append_row_to_sheet st wenv₁ sheet_id row_data wn).1 =
        (true, "Row appended successfully")) ∧
    (((update_sheet_data st wenv₂ sheet_id df wn).1.1 = false ∧
        (update_sheet_data st wenv₂ sheet_id df wn).1.2 ≠ "") ∨
      (update_sheet_data st wenv₂ sheet_id df wn).1 =
        (true, "Sheet updated successfully")) :=
  ⟨client_result_shape st auth, gsd_result_shape st env sheet_id wn use_cache,
    append_result_shape st wenv₁ sheet_id row_data wn,
    update_result_shape st wenv₂ sheet_id df wn⟩

end Aidash
